import Mathlib

/-!
Verification development for the flight-operations ETL pipeline
(`transform.py`, `dw.py`, `load.py`, `etl_control_flow.py`).

The Python sources are shallowly embedded: pandas DataFrames become lists of
records, timestamps become a structure carrying the calendar fields used for
grouping plus an absolute time (a rational number of seconds) used for
arithmetic, nullable columns become `Option`, and the per-record try/except
loops of the fact aggregators become an explicit skip loop over `Except`.
-/

namespace ETL

/-- A pandas timestamp: the calendar fields that `dt.year` / `dt.month` /
`dt.day` / `strftime` expose for grouping, together with the absolute time in
seconds used by timestamp subtraction (`total_seconds`). -/
structure TS where
  year : Int
  month : Nat
  day : Nat
  abs : ℚ
deriving DecidableEq

/-- Character-list lexicographic order on code points, the order `sort_values`
uses on string columns. -/
def charListLe : List Char → List Char → Bool
  | [], _ => true
  | _ :: _, [] => false
  | a :: as, b :: bs =>
    if a.toNat < b.toNat then true
    else if b.toNat < a.toNat then false
    else charListLe as bs

/-- Lexicographic order on strings. -/
def strLe (a b : String) : Bool := charListLe a.data b.data

/-- Insert into a sorted list, used by `sortBy`. -/
def insertSorted (le : α → α → Bool) (a : α) : List α → List α
  | [] => [a]
  | b :: l => if le a b then a :: b :: l else b :: insertSorted le a l

/-- Sorting by a boolean comparison; embeds `DataFrame.sort_values`. -/
def sortBy (le : α → α → Bool) : List α → List α
  | [] => []
  | a :: l => insertSorted le a (sortBy le l)

/-- Each element of a list paired with its successor, if any; embeds the
`groupby(...).shift(-1)` access pattern of `check_and_fix_2nd_BR` (the sorted
frame is contiguous per group, so the in-group successor is the next row when
it has the same group key). -/
def adjPairs : List α → List (α × Option α)
  | [] => []
  | [a] => [(a, none)]
  | a :: b :: l => (a, some b) :: adjPairs (b :: l)

/-- Failure modes of a pygrametl dimension lookup, as named by the `except`
clauses of `transform.py`: `KeyError` (missing natural key) and `TypeError`
(type-conversion failure). -/
inductive LookupErr
  | keyErr
  | typeErr
deriving DecidableEq

/-- The per-row try/except loop shared by the three fact aggregators of
`transform.py`: rows whose processing fails with a caught error kind are
skipped (and logged), an uncaught error escapes the aggregation. -/
def skipLoop (caught : LookupErr → Bool) (f : α → Except LookupErr β) :
    List α → Except LookupErr (List β)
  | [] => .ok []
  | a :: l =>
    match f a with
    | .ok b =>
      match skipLoop caught f l with
      | .ok bs => .ok (b :: bs)
      | .error e => .error e
    | .error e => if caught e then skipLoop caught f l else .error e

/-- Number of rows of an `Except`-wrapped result, `none` when the aggregation
escaped with an error. -/
def exceptLen : Except LookupErr (List β) → Option Nat
  | .ok l => some l.length
  | .error _ => none

/-- Python 3 `round` to an integer: round half to even. -/
def pyRound (q : ℚ) : Int :=
  let f : Int := q.floor
  let frac : ℚ := q - f
  if frac < 1/2 then f
  else if 1/2 < frac then f + 1
  else if f % 2 = 0 then f else f + 1

/-- A row of the `flights_df` DataFrame (AIMS flights), `transform.py`. -/
structure FlightRow where
  id : Nat
  aircraftregistration : String
  scheduleddeparture : TS
  scheduledarrival : Option TS
  actualdeparture : Option TS
  actualarrival : Option TS
  cancelled : Bool
  delaycode : Option String
deriving DecidableEq

/-- `df['dep_date_str'] = df['scheduleddeparture'].dt.strftime('%Y-%m-%d')`
(transform.py line 221), as the (year, month, day) triple the string encodes. -/
def dep_date_str (r : FlightRow) : Int × Nat × Nat :=
  (r.scheduleddeparture.year, r.scheduleddeparture.month, r.scheduleddeparture.day)

/-- `is_cancelled = df['cancelled'] | df['actualdeparture'].isnull()`
(transform.py line 222). -/
def is_cancelled_col (r : FlightRow) : Bool :=
  r.cancelled || r.actualdeparture.isNone

/-- `duration = (df['actualarrival'] - df['actualdeparture']).dt.total_seconds() / 3600.0`
(transform.py line 225); `none` models NaN from a missing operand. -/
def duration_col (r : FlightRow) : Option ℚ :=
  match r.actualarrival, r.actualdeparture with
  | some a, some d => some ((a.abs - d.abs) / 3600)
  | _, _ => none

/-- `df['FH'] = np.where(is_cancelled, 0.0, duration.fillna(0.0))`
(transform.py line 226). -/
def fh_col (r : FlightRow) : ℚ :=
  if is_cancelled_col r then 0 else (duration_col r).getD 0

/-- `df['Takeoffs'] = np.where(is_cancelled, 0, 1)` (transform.py line 229). -/
def takeoffs_col (r : FlightRow) : Int :=
  if is_cancelled_col r then 0 else 1

/-- `df['CFC'] = np.where(is_cancelled, 1, 0)` (transform.py line 232). -/
def cfc_col (r : FlightRow) : Int :=
  if is_cancelled_col r then 1 else 0

/-- `arrival_delay_minutes = (df['actualarrival'] - df['scheduledarrival']).dt.total_seconds() / 60.0`
(transform.py line 235). -/
def arrival_delay_minutes (r : FlightRow) : Option ℚ :=
  match r.actualarrival, r.scheduledarrival with
  | some a, some s => some ((a.abs - s.abs) / 60)
  | _, _ => none

/-- `is_delayed = (df['delaycode'].notnull()) & (arrival_delay_minutes > 15)`
(transform.py line 238); a NaN comparison is false. -/
def is_delayed_col (r : FlightRow) : Bool :=
  r.delaycode.isSome &&
    match arrival_delay_minutes r with
    | some d => decide (15 < d)
    | none => false

/-- `df['TDM'] = np.where(is_delayed, arrival_delay_minutes.fillna(0.0), 0.0)`
(transform.py line 242). -/
def tdm_col (r : FlightRow) : ℚ :=
  if is_delayed_col r then (arrival_delay_minutes r).getD 0 else 0

/-- `df['DFC'] = np.where(is_delayed, 1, 0)` (transform.py line 243). -/
def dfc_col (r : FlightRow) : Int :=
  if is_delayed_col r then 1 else 0

/-- The groupby key of the daily aggregation:
`df.groupby(['dep_date_str', 'aircraftregistration'])` (transform.py line 247). -/
def flightKey (r : FlightRow) : (Int × Nat × Nat) × String :=
  (dep_date_str r, r.aircraftregistration)

/-- A row of `agg_df` in `get_flights_operations_daily`. -/
structure AggFlightRow where
  key : (Int × Nat × Nat) × String
  FH : ℚ
  Takeoffs : Int
  CFC : Int
  DFC : Int
  TDM : ℚ

/-- The groupby/sum aggregation of `get_flights_operations_daily`
(transform.py lines 247-255): one row per distinct key, measures summed over
the key's group. -/
def flight_agg_rows (flights : List FlightRow) : List AggFlightRow :=
  ((flights.map flightKey).dedup).map (fun k =>
    let grp := flights.filter (fun r => flightKey r = k)
    { key := k
      FH := (grp.map fh_col).sum
      Takeoffs := (grp.map takeoffs_col).sum
      CFC := (grp.map cfc_col).sum
      DFC := (grp.map dfc_col).sum
      TDM := (grp.map tdm_col).sum })

/-- An emitted row of the Flight_Operations_Daily fact table. -/
structure FlightFact where
  Date_ID : Nat
  Aircraft_ID : Nat
  FH : ℚ
  Takeoffs : Int
  DFC : Int
  CFC : Int
  TDM : Int
deriving DecidableEq

/-- The try-block body of `get_flights_operations_daily` (transform.py lines
260-272): resolve both dimension keys and build the fact row, with
`TDM = int(round(row['TDM']))`. -/
def process_flight_row
    (dates_dim : Int × Nat × Nat → Except LookupErr Nat)
    (aircrafts_dim : String → Except LookupErr Nat)
    (row : AggFlightRow) : Except LookupErr FlightFact :=
  match dates_dim row.key.1 with
  | .error e => .error e
  | .ok date_id =>
    match aircrafts_dim row.key.2 with
    | .error e => .error e
    | .ok aircraft_id =>
      .ok { Date_ID := date_id, Aircraft_ID := aircraft_id, FH := row.FH,
            Takeoffs := row.Takeoffs, DFC := row.DFC, CFC := row.CFC,
            TDM := pyRound row.TDM }

/-- `get_flights_operations_daily` (transform.py lines 201-274); the loop
catches `(KeyError, TypeError)`, so both failure kinds are skipped. -/
def get_flights_operations_daily (flights : List FlightRow)
    (dates_dim : Int × Nat × Nat → Except LookupErr Nat)
    (aircrafts_dim : String → Except LookupErr Nat) :
    Except LookupErr (List FlightFact) :=
  skipLoop (fun _ => true) (process_flight_row dates_dim aircrafts_dim)
    (flight_agg_rows flights)

/-- A row of the `maintenance_df` DataFrame (AIMS maintenance),
`transform.py`. -/
structure MaintRow where
  aircraftregistration : Option String
  scheduleddeparture : Option TS
  scheduledarrival : Option TS
  programmed : Bool
deriving DecidableEq

/-- A maintenance row surviving
`dropna(subset=['scheduleddeparture', 'scheduledarrival', 'aircraftregistration'])`
(transform.py line 295). -/
structure MaintRowD where
  aircraftregistration : String
  scheduleddeparture : TS
  scheduledarrival : TS
  programmed : Bool
deriving DecidableEq

/-- The `dropna` of `get_aircrafts_monthly_snapshot`. -/
def maint_dropna (l : List MaintRow) : List MaintRowD :=
  l.filterMap (fun r =>
    match r.scheduleddeparture, r.scheduledarrival, r.aircraftregistration with
    | some d, some a, some reg =>
      some { aircraftregistration := reg, scheduleddeparture := d,
             scheduledarrival := a, programmed := r.programmed }
    | _, _, _ => none)

/-- `duration_hours = (df['scheduledarrival'] - df['scheduleddeparture']).dt.total_seconds() / 3600.0`
(transform.py line 301). -/
def duration_hours_col (r : MaintRowD) : ℚ :=
  (r.scheduledarrival.abs - r.scheduleddeparture.abs) / 3600

/-- `Series.clip(lower=0.0, upper=1.0)`: values below 0 become 0, values above
1 become 1. -/
def clip01 (q : ℚ) : ℚ :=
  if q < 0 then 0 else if 1 < q then 1 else q

/-- `pct_of_day = (duration_hours / 24.0).clip(lower=0.0, upper=1.0)`
(transform.py line 302). -/
def pct_of_day_col (r : MaintRowD) : ℚ :=
  clip01 (duration_hours_col r / 24)

/-- `df['scheduled_pct'] = np.where(df['programmed'], pct_of_day, 0.0)`
(transform.py line 304). -/
def scheduled_pct_col (r : MaintRowD) : ℚ :=
  if r.programmed then pct_of_day_col r else 0

/-- `df['unscheduled_pct'] = np.where(~df['programmed'], pct_of_day, 0.0)`
(transform.py line 305). -/
def unscheduled_pct_col (r : MaintRowD) : ℚ :=
  if !r.programmed then pct_of_day_col r else 0

/-- The groupby key `['year', 'month_num', 'aircraftregistration']` of
`get_aircrafts_monthly_snapshot` (transform.py line 309). -/
def maintKey (r : MaintRowD) : Int × Nat × String :=
  (r.scheduleddeparture.year, r.scheduleddeparture.month, r.aircraftregistration)

/-- Gregorian leap-year rule used by `calendar.monthrange`. -/
def isLeap (y : Int) : Bool :=
  (y % 4 == 0 && y % 100 != 0) || y % 400 == 0

/-- `calendar.monthrange(year, month)[1]`: the number of days of the month. -/
def monthrange_days (y : Int) (m : Nat) : Nat :=
  if m = 2 then (if isLeap y then 29 else 28)
  else if m = 4 || m = 6 || m = 9 || m = 11 then 30
  else 31

/-- An emitted row of the Aircraft_Monthly_Summary fact table. -/
structure MaintFact where
  Month_ID : Nat
  Aircraft_ID : Nat
  ADIS : ℚ
  ADOSS : ℚ
  ADOSU : ℚ
deriving DecidableEq

/-- A row of `agg_df` in `get_aircrafts_monthly_snapshot`. -/
structure AggMaintRow where
  key : Int × Nat × String
  ADOSS : ℚ
  ADOSU : ℚ

/-- The groupby/sum aggregation of `get_aircrafts_monthly_snapshot`
(transform.py lines 309-314). -/
def maint_agg_rows (maintenance : List MaintRow) : List AggMaintRow :=
  let df := maint_dropna maintenance
  ((df.map maintKey).dedup).map (fun k =>
    let grp := df.filter (fun r => maintKey r = k)
    { key := k
      ADOSS := (grp.map scheduled_pct_col).sum
      ADOSU := (grp.map unscheduled_pct_col).sum })

/-- The try-block body of `get_aircrafts_monthly_snapshot` (transform.py lines
319-333): resolve the dimension keys, then
`adis = num_days_in_month - (ADOSS + ADOSU)`. -/
def process_maint_row
    (months_dim : Nat × Int → Except LookupErr Nat)
    (aircrafts_dim : String → Except LookupErr Nat)
    (row : AggMaintRow) : Except LookupErr MaintFact :=
  match months_dim (row.key.2.1, row.key.1) with
  | .error e => .error e
  | .ok month_id =>
    match aircrafts_dim row.key.2.2 with
    | .error e => .error e
    | .ok aircraft_id =>
      .ok { Month_ID := month_id, Aircraft_ID := aircraft_id,
            ADIS := (monthrange_days row.key.1 row.key.2.1 : ℚ) - (row.ADOSS + row.ADOSU),
            ADOSS := row.ADOSS, ADOSU := row.ADOSU }

/-- `get_aircrafts_monthly_snapshot` (transform.py lines 277-335); the loop
catches `(KeyError, TypeError)`. -/
def get_aircrafts_monthly_snapshot (maintenance : List MaintRow)
    (months_dim : Nat × Int → Except LookupErr Nat)
    (aircrafts_dim : String → Except LookupErr Nat) :
    Except LookupErr (List MaintFact) :=
  skipLoop (fun _ => true) (process_maint_row months_dim aircrafts_dim)
    (maint_agg_rows maintenance)

/-- A row of the `technical_logbooks_df` DataFrame, `transform.py`.
The source column `reporteurclass` is embedded as `reporteurKind`. -/
structure LogRow where
  reportingdate : Option TS
  aircraftregistration : Option String
  reporteurKind : Option String
  executionplace : Option String
deriving DecidableEq

/-- A logbook row surviving
`dropna(subset=['reportingdate', 'aircraftregistration', 'reporteurclass', 'executionplace'])`
(transform.py lines 358-360). -/
structure LogRowD where
  reportingdate : TS
  aircraftregistration : String
  reporteurKind : String
  executionplace : String
deriving DecidableEq

/-- The `dropna` of `get_logbooks`. -/
def log_dropna (l : List LogRow) : List LogRowD :=
  l.filterMap (fun r =>
    match r.reportingdate, r.aircraftregistration, r.reporteurKind, r.executionplace with
    | some d, some reg, some cl, some pl =>
      some { reportingdate := d, aircraftregistration := reg,
             reporteurKind := cl, executionplace := pl }
    | _, _, _, _ => none)

/-- The groupby key
`['year', 'month_num', 'aircraftregistration', 'reporteurclass', 'executionplace']`
of `get_logbooks` (transform.py line 369). -/
def logKey (r : LogRowD) : (Int × Nat) × String × String × String :=
  ((r.reportingdate.year, r.reportingdate.month),
   r.aircraftregistration, r.reporteurKind, r.executionplace)

/-- An emitted row of the Logbooks fact table. -/
structure LogFact where
  Month_ID : Nat
  Aircraft_ID : Nat
  Reporter_ID : Nat
  Log_Count : Nat
deriving DecidableEq

/-- A row of `agg_df` in `get_logbooks`: the key with the group size
(`groupby(...).size()`, transform.py lines 368-373). -/
structure AggLogRow where
  key : (Int × Nat) × String × String × String
  Log_Count : Nat

/-- The groupby/size aggregation of `get_logbooks`. -/
def log_agg_rows (logs : List LogRow) : List AggLogRow :=
  let df := log_dropna logs
  ((df.map logKey).dedup).map (fun k =>
    { key := k, Log_Count := (df.filter (fun r => logKey r = k)).length })

/-- The try-block body of `get_logbooks` (transform.py lines 379-388). -/
def process_log_row
    (months_dim : Nat × Int → Except LookupErr Nat)
    (aircrafts_dim : String → Except LookupErr Nat)
    (reporters_dim : String × String → Except LookupErr Nat)
    (row : AggLogRow) : Except LookupErr LogFact :=
  match months_dim (row.key.1.2, row.key.1.1) with
  | .error e => .error e
  | .ok month_id =>
    match aircrafts_dim row.key.2.1 with
    | .error e => .error e
    | .ok aircraft_id =>
      match reporters_dim (row.key.2.2.1, row.key.2.2.2) with
      | .error e => .error e
      | .ok reporter_id =>
        .ok { Month_ID := month_id, Aircraft_ID := aircraft_id,
              Reporter_ID := reporter_id, Log_Count := row.Log_Count }

/-- `get_logbooks` (transform.py lines 338-390); unlike the other two
aggregators its loop catches only `KeyError` (line 389). -/
def get_logbooks (logs : List LogRow)
    (months_dim : Nat × Int → Except LookupErr Nat)
    (aircrafts_dim : String → Except LookupErr Nat)
    (reporters_dim : String × String → Except LookupErr Nat) :
    Except LookupErr (List LogFact) :=
  skipLoop (fun e => e = .keyErr)
    (process_log_row months_dim aircrafts_dim reporters_dim)
    (log_agg_rows logs)

/-- The per-record repair of `check_and_fix_1st_BR` (transform.py lines
397-423): swap actual arrival and departure when both are present and the
arrival precedes the departure. -/
def fix1 (r : FlightRow) : FlightRow :=
  match r.actualarrival, r.actualdeparture with
  | some a, some d =>
    if a.abs < d.abs then
      { r with actualarrival := some d, actualdeparture := some a }
    else r
  | _, _ => r

/-- `check_and_fix_1st_BR`: the swap applied uniformly to every row of a copy
of the frame. -/
def check_and_fix_1st_BR (flights : List FlightRow) : List FlightRow :=
  flights.map fix1

/-- The sort key of `check_and_fix_2nd_BR`
(`sort_values(by=['aircraftregistration', 'actualdeparture'])`,
transform.py line 440); pandas places missing departures last. -/
def br2Le (a b : FlightRow) : Bool :=
  if a.aircraftregistration = b.aircraftregistration then
    match a.actualdeparture, b.actualdeparture with
    | some x, some y => decide (x.abs ≤ y.abs)
    | some _, none => true
    | none, some _ => false
    | none, none => true
  else strLe a.aircraftregistration b.aircraftregistration

/-- The non-cancelled flights sorted by aircraft and departure
(transform.py lines 439-440). -/
def sortedNC (flights : List FlightRow) : List FlightRow :=
  sortBy br2Le (flights.filter (fun r => !r.cancelled))

/-- The overlap test of `check_and_fix_2nd_BR` on a sorted row and its
successor: flag the row's id when the successor belongs to the same aircraft
and `actualarrival > next_departure` (transform.py lines 444-450); missing
values compare false. -/
def br2Flag : FlightRow × Option FlightRow → Option Nat
  | (r, some nx) =>
    if nx.aircraftregistration = r.aircraftregistration then
      match r.actualarrival, nx.actualdeparture with
      | some arr, some dep => if dep.abs < arr.abs then some r.id else none
      | _, _ => none
    else none
  | (_, none) => none

/-- `ignored_flights_ids = set(df[overlap_cond]['id'])` (transform.py line
450). -/
def ignored_flights_ids (flights : List FlightRow) : List Nat :=
  (adjPairs (sortedNC flights)).filterMap br2Flag

/-- `check_and_fix_2nd_BR` (transform.py lines 426-458): the original frame
without the flagged ids. -/
def check_and_fix_2nd_BR (flights : List FlightRow) : List FlightRow :=
  flights.filter (fun r => !decide (r.id ∈ ignored_flights_ids flights))

/-- A row of the `postflightreports_df` DataFrame (AMOS post-flight
reports), as used by `check_and_fix_3rd_BR`. -/
structure ReportRow where
  pfrid : Nat
  aircraftregistration : String
deriving DecidableEq

/-- `check_and_fix_3rd_BR` (transform.py lines 461-491): keep only the reports
whose aircraft registration appears in the reference master list. -/
def check_and_fix_3rd_BR (reports : List ReportRow)
    (aircraft_reg_codes : List String) : List ReportRow :=
  reports.filter (fun r => decide (r.aircraftregistration ∈ aircraft_reg_codes))

/-- Modelled from the spec: the surrogate-key registry behaviour of the
pygrametl `CachedDimension` objects declared in `dw.py` and driven through
`ensure` by `load.py`; the `ensure`/`lookup` implementation itself is library
code absent from the repository sources. A registry maps natural keys to
surrogate keys and carries the next surrogate to assign. -/
structure Registry (K : Type) where
  entries : List (K × Nat)
  nextKey : Nat
deriving DecidableEq

/-- Modelled from the spec: `lookup(naturalKey)` returns the surrogate key of
an already-ensured natural key, if any. -/
def Registry.find [DecidableEq K] (reg : Registry K) (k : K) : Option Nat :=
  (reg.entries.find? (fun e => decide (e.1 = k))).map (·.2)

/-- Modelled from the spec: `ensure(naturalKey, ...)` inserts the entity if its
natural key is unseen, assigning the next integer of the registry's sequence,
and returns its surrogate key either way. -/
def Registry.ensure [DecidableEq K] (reg : Registry K) (k : K) :
    Registry K × Nat :=
  match reg.find k with
  | some s => (reg, s)
  | none =>
    ({ entries := reg.entries ++ [(k, reg.nextKey)], nextKey := reg.nextKey + 1 },
     reg.nextKey)

/-- Modelled from the spec: a technical logbook entry carrying a referenced
secondary-record identifier (a work-order reference); no such record type
appears in the repository sources, which is what claim C8's cascading filter
would have to consume. -/
structure TechLogEntry where
  entryId : Nat
  refId : Nat
deriving DecidableEq

/-- The in-memory data the cleaning phase of `etl_control_flow.py` operates
on. -/
structure PipelineData where
  flights : List FlightRow
  postflightreports : List ReportRow
  techLogEntries : List TechLogEntry
deriving DecidableEq

/-- The cleaning phase of `etl_control_flow.py` (lines 68-81): with cleaning
enabled it rebinds `flights_df` through BR1 then BR2 and
`postflightreports_df` through BR3; no other stream is touched. -/
def cleaning_phase (aircraft_reg_codes : List String) (d : PipelineData) :
    PipelineData :=
  { flights := check_and_fix_2nd_BR (check_and_fix_1st_BR d.flights),
    postflightreports := check_and_fix_3rd_BR d.postflightreports aircraft_reg_codes,
    techLogEntries := d.techLogEntries }

/-- The externally visible outcomes of one run of the `__main__` block of
`etl_control_flow.py`. -/
inductive RunEvent
  | dwCreated
  | completed
  | errorPrinted (msg : String)
  | dwConnClosed
  | exitNoDw
deriving DecidableEq

/-- The fallible phases of a run, as the coordinator sees them: each either
returns or raises. -/
structure RunScript where
  dwCreateOk : Bool
  extraction : Except String Unit
  cleaningFlag : Bool
  cleaningPhase : Except String Unit
  dimensionLoad : Except String Unit
  factLoad : Except String Unit

/-- The body of the `try` block of `etl_control_flow.py` after the DW handle
exists: extraction, then (optionally) cleaning, then dimension load, then fact
load; the first raising phase aborts the rest. -/
def run_phases (s : RunScript) : Except String Unit :=
  match s.extraction with
  | .error e => .error e
  | .ok _ =>
    match (if s.cleaningFlag then s.cleaningPhase else .ok ()) with
    | .error e => .error e
    | .ok _ =>
      match s.dimensionLoad with
      | .error e => .error e
      | .ok _ => s.factLoad

/-- The event trace of the `__main__` block of `etl_control_flow.py` (lines
33-150): `dw = None`; `try` creates the DW and runs the phases, `except
Exception` reports any error, and `finally` calls `dw.close()` whenever `dw`
was bound. A failed DW creation exits inside `DW.__init__` with `dw` still
`None`. -/
def etl_main (s : RunScript) : List RunEvent :=
  if s.dwCreateOk then
    [RunEvent.dwCreated] ++
      (match run_phases s with
       | .ok _ => [RunEvent.completed]
       | .error e => [RunEvent.errorPrinted e]) ++
      [RunEvent.dwConnClosed]
  else
    [RunEvent.exitNoDw]

/-- The native DuckDB connection state touched by `_load_fact_table_bulk`
(load.py lines 91-149): fact-table contents, the registered virtual views and
a commit counter. -/
structure DuckConn (α : Type) where
  tables : List (String × List α)
  registered : List (String × List α)
  commitCount : Nat

/-- The contents of a table of the connection (empty when absent). -/
def tableContents (c : DuckConn α) (nm : String) : List α :=
  ((c.tables.find? (fun t => t.1 = nm)).map (·.2)).getD []

/-- The statements `_load_fact_table_bulk` can execute against the
connection. -/
inductive DBAction (α : Type)
  | registerView (nm : String) (rows : List α)
  | insertInto (table : String) (view : String)
  | commit
  | unregisterView (nm : String)

/-- Effect of one statement on the connection. -/
def applyAction (c : DuckConn α) : DBAction α → DuckConn α
  | .registerView nm rows => { c with registered := (nm, rows) :: c.registered }
  | .insertInto table view =>
    let rows := ((c.registered.find? (fun t => t.1 = view)).map (·.2)).getD []
    { c with tables := c.tables.map (fun t => if t.1 = table then (t.1, t.2 ++ rows) else t) }
  | .commit => { c with commitCount := c.commitCount + 1 }
  | .unregisterView nm => { c with registered := c.registered.filter (fun t => t.1 ≠ nm) }

/-- Run a statement sequence. -/
def runActions (c : DuckConn α) : List (DBAction α) → DuckConn α
  | [] => c
  | a :: l => runActions (applyAction c a) l

/-- `_load_fact_table_bulk` (load.py lines 91-149): materialize the iterator,
return immediately when the frame is empty, otherwise register the virtual
view, bulk-insert from it, commit, and unregister in the finally block. The
returned list is the statement sequence executed on the connection. -/
def load_fact_table_bulk (conn : DuckConn α) (table_name : String)
    (iterator : List α) : DuckConn α × List (DBAction α) :=
  let df_to_insert := iterator
  if df_to_insert.isEmpty then
    (conn, [])
  else
    let acts : List (DBAction α) :=
      [DBAction.registerView "df_fact_virtual" df_to_insert,
       DBAction.insertInto table_name "df_fact_virtual",
       DBAction.commit,
       DBAction.unregisterView "df_fact_virtual"]
    (runActions conn acts, acts)

/-- Error kind of an `Except`-wrapped aggregation result, `none` when it
succeeded. -/
def exceptErr : Except LookupErr (List β) → Option LookupErr
  | .ok _ => none
  | .error e => some e

/-! Concrete records used by the boundary scenarios of the claims. All
timestamps carry their absolute time in seconds. -/

/-- A timestamp on 2024-01-15 at `s` seconds. -/
def ts (s : ℚ) : TS := { year := 2024, month := 1, day := 15, abs := s }

/-- A non-cancelled flight of aircraft AC1 departing and arriving on time. -/
def mkF (i : Nat) (dep arr : ℚ) : FlightRow :=
  { id := i, aircraftregistration := "AC1", scheduleddeparture := ts dep,
    scheduledarrival := some (ts arr), actualdeparture := some (ts dep),
    actualarrival := some (ts arr), cancelled := false, delaycode := none }

/-- Flight A of the Rule 2 scenario: departs 08:00, arrives 10:00. -/
def fA : FlightRow := mkF 1 28800 36000

/-- Flight B of the Rule 2 scenario: departs 09:00, arrives 11:00. -/
def fB : FlightRow := mkF 2 32400 39600

/-- Flight C of the Rule 2 scenario: departs 11:30, arrives 13:00. -/
def fC : FlightRow := mkF 3 41400 46800

/-- Chain flight A: departs 08:00, arrives 11:00. -/
def gA : FlightRow := mkF 1 28800 39600

/-- Chain flight B: departs 09:00, arrives 12:00 — overlapped by A, and itself
overlapping C. -/
def gB : FlightRow := mkF 2 32400 43200

/-- Chain flight C: departs 10:00, arrives 13:00. -/
def gC : FlightRow := mkF 3 36000 46800

/-- A cancelled flight of aircraft `reg`, used to build resolvable and
unresolvable aggregation groups. -/
def mkFR (i : Nat) (reg : String) : FlightRow :=
  { id := i, aircraftregistration := reg, scheduleddeparture := ts 0,
    scheduledarrival := none, actualdeparture := none,
    actualarrival := none, cancelled := true, delaycode := none }

/-- Ten flights on ten distinct aircraft: ten aggregation groups. -/
def tenFlights : List FlightRow :=
  [mkFR 0 "R0", mkFR 1 "R1", mkFR 2 "R2", mkFR 3 "R3", mkFR 4 "R4",
   mkFR 5 "R5", mkFR 6 "R6", mkFR 7 "R7", mkFR 8 "R8", mkFR 9 "R9"]

/-- A date dimension that resolves every date. -/
def exDates : Int × Nat × Nat → Except LookupErr Nat := fun _ => .ok 1

/-- An aircraft dimension missing the natural key R9: its lookup raises
`KeyError`. -/
def exAircrafts : String → Except LookupErr Nat :=
  fun s => if s = "R9" then .error .keyErr else .ok 2

/-- An aircraft dimension whose lookup of R9 fails with `TypeError`. -/
def exAircraftsT : String → Except LookupErr Nat :=
  fun s => if s = "R9" then .error .typeErr else .ok 2

/-- A technical logbook row of aircraft `reg`. -/
def mkL (reg : String) : LogRow :=
  { reportingdate := some (ts 0), aircraftregistration := some reg,
    reporteurKind := some "PIREP", executionplace := some "BCN" }

/-- Ten logbook rows on ten distinct aircraft: ten aggregation groups. -/
def tenLogs : List LogRow :=
  [mkL "R0", mkL "R1", mkL "R2", mkL "R3", mkL "R4",
   mkL "R5", mkL "R6", mkL "R7", mkL "R8", mkL "R9"]

/-- A month dimension that resolves every month. -/
def exMonths : Nat × Int → Except LookupErr Nat := fun _ => .ok 1

/-- A reporter dimension that resolves every reporter. -/
def exReporters : String × String → Except LookupErr Nat := fun _ => .ok 3

/-- A flight with delay code set whose arrival delay is exactly 15 minutes
(scheduled arrival at second 0, actual arrival at second 900). -/
def rC1 : FlightRow :=
  { id := 7, aircraftregistration := "AC1", scheduleddeparture := ts 0,
    scheduledarrival := some (ts 0), actualdeparture := some (ts 0),
    actualarrival := some (ts 900), cancelled := false, delaycode := some "D1" }

/-- A non-cancelled flight whose actual arrival (second 0) precedes its actual
departure (second 3600): its flight-hours contribution is negative. -/
def rNeg : FlightRow :=
  { id := 8, aircraftregistration := "AC1", scheduleddeparture := ts 0,
    scheduledarrival := some (ts 0), actualdeparture := some (ts 3600),
    actualarrival := some (ts 0), cancelled := false, delaycode := none }

/-- A flight whose cancelled flag is clear but whose actual departure is
missing. -/
def rBad : FlightRow :=
  { id := 9, aircraftregistration := "AC1", scheduleddeparture := ts 0,
    scheduledarrival := none, actualdeparture := none,
    actualarrival := none, cancelled := false, delaycode := none }

/-- A swappable flight: actual arrival at second 100 before actual departure
at second 200. -/
def rSwap : FlightRow :=
  { id := 10, aircraftregistration := "AC1", scheduleddeparture := ts 0,
    scheduledarrival := some (ts 0), actualdeparture := some (ts 200),
    actualarrival := some (ts 100), cancelled := false, delaycode := none }

/-- A 30-hour programmed maintenance window (108000 seconds). -/
def mEx : MaintRowD :=
  { aircraftregistration := "AC1", scheduleddeparture := ts 0,
    scheduledarrival := ts 108000, programmed := true }

/-- A valid post-flight report on aircraft AC1. -/
def rep1 : ReportRow := { pfrid := 1, aircraftregistration := "AC1" }

/-- A post-flight report on an aircraft absent from the master list. -/
def rep2 : ReportRow := { pfrid := 2, aircraftregistration := "BAD" }

/-- A technical logbook entry referencing report 2, which Rule 3
invalidates. -/
def tl1 : TechLogEntry := { entryId := 100, refId := 2 }

/-- Pipeline data holding reports 1 and 2 and the entry referencing report
2. -/
def dEx : PipelineData :=
  { flights := [], postflightreports := [rep1, rep2], techLogEntries := [tl1] }

/-- A run whose extraction phase raises. -/
def sEx : RunScript :=
  { dwCreateOk := true, extraction := .error "database unreachable",
    cleaningFlag := true, cleaningPhase := .ok (), dimensionLoad := .ok (),
    factLoad := .ok () }

/-! Helper lemmas. -/

theorem insertSorted_perm (le : α → α → Bool) (a : α) (l : List α) :
    (insertSorted le a l).Perm (a :: l) := by
  induction l with
  | nil => simp [insertSorted]
  | cons b t ih =>
    simp only [insertSorted]
    split
    · exact List.Perm.refl _
    · exact (List.Perm.cons b ih).trans (List.Perm.swap a b t)

theorem sortBy_perm (le : α → α → Bool) (l : List α) : (sortBy le l).Perm l := by
  induction l with
  | nil => simp [sortBy]
  | cons a t ih =>
    exact (insertSorted_perm le a (sortBy le t)).trans (List.Perm.cons a ih)

theorem adjPairs_snd_mem {a b : α} :
    ∀ {l : List α}, (a, some b) ∈ adjPairs l → b ∈ l := by
  intro l
  induction l with
  | nil => intro h; simp [adjPairs] at h
  | cons x t ih =>
    intro h
    match t, h with
    | [], h => simp [adjPairs] at h
    | y :: t, h =>
      simp only [adjPairs, List.mem_cons] at h
      rcases h with h | h
      · have hb : b = y := by
          have h2 := congrArg Prod.snd h
          simpa using h2
        rw [hb]
        exact List.mem_cons_of_mem x (List.mem_cons_self y t)
      · exact List.mem_cons_of_mem x (ih h)

theorem br2Flag_eq_some {p : FlightRow × Option FlightRow} {x : Nat}
    (h : br2Flag p = some x) : x = p.1.id := by
  obtain ⟨r, nx⟩ := p
  cases nx with
  | none => simp [br2Flag] at h
  | some nx =>
    simp only [br2Flag] at h
    split at h
    · split at h
      · split at h
        · simpa using h.symm
        · simp at h
      · simp at h
    · simp at h

theorem sortedNC_subset {flights : List FlightRow} {r : FlightRow}
    (h : r ∈ sortedNC flights) : r ∈ flights := by
  have h1 : r ∈ flights.filter (fun r => !r.cancelled) :=
    ((sortBy_perm br2Le _).mem_iff).mp h
  exact (List.mem_filter.mp h1).1

theorem skipLoop_catchall_ok (f : α → Except LookupErr β) (l : List α) :
    ∃ out, skipLoop (fun _ => true) f l = .ok out := by
  induction l with
  | nil => exact ⟨[], rfl⟩
  | cons a t ih =>
    obtain ⟨out, hout⟩ := ih
    cases hf : f a with
    | ok b => exact ⟨b :: out, by simp [skipLoop, hf, hout]⟩
    | error e => exact ⟨out, by simp [skipLoop, hf, hout]⟩

theorem skipLoop_no_typeErr_ok (f : α → Except LookupErr β) (l : List α)
    (hf : ∀ a, f a ≠ .error .typeErr) :
    ∃ out, skipLoop (fun e => e = .keyErr) f l = .ok out := by
  induction l with
  | nil => exact ⟨[], rfl⟩
  | cons a t ih =>
    obtain ⟨out, hout⟩ := ih
    cases hfa : f a with
    | ok b => exact ⟨b :: out, by simp [skipLoop, hfa, hout]⟩
    | error e =>
      cases e with
      | keyErr => exact ⟨out, by simp [skipLoop, hfa, hout]⟩
      | typeErr => exact absurd hfa (hf a)

theorem process_log_row_no_typeErr
    (months_dim : Nat × Int → Except LookupErr Nat)
    (aircrafts_dim : String → Except LookupErr Nat)
    (reporters_dim : String × String → Except LookupErr Nat)
    (hm : ∀ k, months_dim k ≠ .error .typeErr)
    (ha : ∀ k, aircrafts_dim k ≠ .error .typeErr)
    (hr : ∀ k, reporters_dim k ≠ .error .typeErr)
    (row : AggLogRow) :
    process_log_row months_dim aircrafts_dim reporters_dim row ≠ .error .typeErr := by
  unfold process_log_row
  cases h1 : months_dim (row.key.1.2, row.key.1.1) with
  | error e =>
    intro hc
    exact hm _ (h1.trans (congrArg Except.error (Except.error.inj hc)))
  | ok m =>
    cases h2 : aircrafts_dim row.key.2.1 with
    | error e =>
      intro hc
      exact ha _ (h2.trans (congrArg Except.error (Except.error.inj hc)))
    | ok a =>
      cases h3 : reporters_dim (row.key.2.2.1, row.key.2.2.2) with
      | error e =>
        intro hc
        exact hr _ (h3.trans (congrArg Except.error (Except.error.inj hc)))
      | ok rid => simp

theorem find?_append_none {p : α → Bool} {l₁ l₂ : List α}
    (h : l₁.find? p = none) : (l₁ ++ l₂).find? p = l₂.find? p := by
  rw [List.find?_append, h, Option.none_or]

theorem fix1_fix1 (r : FlightRow) : fix1 (fix1 r) = fix1 r := by
  cases ha : r.actualarrival with
  | none =>
    cases hd : r.actualdeparture with
    | none => simp [fix1, ha, hd]
    | some d => simp [fix1, ha, hd]
  | some a =>
    cases hd : r.actualdeparture with
    | none => simp [fix1, ha, hd]
    | some d =>
      by_cases hlt : a.abs < d.abs
      · have h1 : fix1 r =
            { r with actualarrival := some d, actualdeparture := some a } := by
          simp [fix1, ha, hd, hlt]
        rw [h1]
        simp [fix1, not_lt_of_lt hlt]
      · have h1 : fix1 r = r := by simp [fix1, ha, hd, hlt]
        rw [h1, h1]

theorem ensure_found {K : Type} [DecidableEq K] {reg : Registry K} {k : K}
    {s : Nat} (hf : reg.find k = some s) : reg.ensure k = (reg, s) := by
  unfold Registry.ensure
  rw [hf]

/-! Claim theorems. -/

/-- C5: Rule 1 drops no record; a record with both actual timestamps present
and arrival before departure has the two fields swapped (after which the
departure precedes the arrival), every other record is unchanged, and the
transform is idempotent. -/
theorem c5_rule1_fixpoint :
    (∀ flights, (check_and_fix_1st_BR flights).length = flights.length)
    ∧ (∀ (r : FlightRow) (a d : TS), r.actualarrival = some a →
        r.actualdeparture = some d → a.abs < d.abs →
        fix1 r = { r with actualarrival := some d, actualdeparture := some a }
        ∧ (fix1 r).actualdeparture = some a ∧ (fix1 r).actualarrival = some d)
    ∧ (∀ (r : FlightRow) (a d : TS), r.actualarrival = some a →
        r.actualdeparture = some d → ¬ a.abs < d.abs → fix1 r = r)
    ∧ (∀ r : FlightRow, r.actualarrival = none ∨ r.actualdeparture = none →
        fix1 r = r)
    ∧ (∀ flights, check_and_fix_1st_BR (check_and_fix_1st_BR flights)
        = check_and_fix_1st_BR flights) := by
  refine ⟨?_, ?_, ?_, ?_, ?_⟩
  · intro flights
    exact List.length_map flights fix1
  · intro r a d ha hd hlt
    refine ⟨by simp [fix1, ha, hd, hlt], ?_, ?_⟩ <;> simp [fix1, ha, hd, hlt]
  · intro r a d ha hd hlt
    simp [fix1, ha, hd, hlt]
  · intro r h
    rcases h with h | h
    · cases hd : r.actualdeparture <;> simp [fix1, h, hd]
    · cases ha : r.actualarrival <;> simp [fix1, h, ha]
  · intro flights
    have hcomp : fix1 ∘ fix1 = fix1 := funext fix1_fix1
    simp only [check_and_fix_1st_BR, List.map_map, hcomp]

/-- Witness for C5 at a concrete swappable record. -/
theorem c5_rule1_fixpoint_witness :
    fix1 rSwap = { rSwap with actualarrival := some (ts 200),
                              actualdeparture := some (ts 100) } :=
  (c5_rule1_fixpoint.2.1 rSwap (ts 100) (ts 200) rfl rfl (by decide)).1

/-- C7: ensuring the same natural key twice returns the same surrogate key,
leaves the registry unchanged, and in particular does not grow it. -/
theorem c7_registry_idempotent {K : Type} [DecidableEq K]
    (reg : Registry K) (k : K) :
    ((reg.ensure k).1.ensure k).2 = (reg.ensure k).2
    ∧ ((reg.ensure k).1.ensure k).1 = (reg.ensure k).1
    ∧ ((reg.ensure k).1.ensure k).1.entries.length
        = (reg.ensure k).1.entries.length := by
  have hfind : (reg.ensure k).1.find k = some (reg.ensure k).2 := by
    unfold Registry.ensure
    cases hf : reg.find k with
    | some s => simpa using hf
    | none =>
      simp only
      have h0 : reg.entries.find? (fun e => decide (e.1 = k)) = none := by
        cases hcase : reg.entries.find? (fun e => decide (e.1 = k)) with
        | none => rfl
        | some e =>
          unfold Registry.find at hf
          rw [hcase] at hf
          simp at hf
      unfold Registry.find
      simp only
      rw [find?_append_none h0]
      simp [List.find?]
  have hsecond : (reg.ensure k).1.ensure k = ((reg.ensure k).1, (reg.ensure k).2) :=
    ensure_found hfind
  refine ⟨?_, ?_, ?_⟩
  · rw [hsecond]
  · rw [hsecond]
  · rw [hsecond]

/-- Witness for C7 at a concrete registry and natural key. -/
theorem c7_registry_idempotent_witness :
    (((⟨[], 1⟩ : Registry Nat).ensure 5).1.ensure 5).2
      = ((⟨[], 1⟩ : Registry Nat).ensure 5).2 :=
  (c7_registry_idempotent ⟨[], 1⟩ 5).1

/-- C8 (amended): the cleaning phase leaves the technical logbook entry stream
untouched — no Rule 4 cascading filter is applied. -/
theorem c8_no_rule4 (aircraft_reg_codes : List String) (d : PipelineData) :
    (cleaning_phase aircraft_reg_codes d).techLogEntries = d.techLogEntries
    ∧ ∀ e, e ∈ d.techLogEntries →
        e ∈ (cleaning_phase aircraft_reg_codes d).techLogEntries :=
  ⟨rfl, fun _ he => he⟩

/-- Witness for C8: the concrete entry survives the cleaning phase. -/
theorem c8_no_rule4_witness :
    tl1 ∈ (cleaning_phase ["AC1"] dEx).techLogEntries :=
  (c8_no_rule4 ["AC1"] dEx).2 tl1 (by decide)

/-- Counterexample to C8 as stated: report 2 is invalidated by Rule 3, yet the
logbook entry referencing it is still present after the cleaning phase — the
claimed cascading filter never runs. -/
theorem c8_counterexample :
    tl1 ∈ (cleaning_phase ["AC1"] dEx).techLogEntries
    ∧ tl1.refId ∉ ((cleaning_phase ["AC1"] dEx).postflightreports.map ReportRow.pfrid)
    ∧ rep2 ∈ dEx.postflightreports ∧ rep2.pfrid = tl1.refId := by
  decide

/-- C9: whenever the DW handle was successfully created, the final cleanup
closes the connection, and it is the last step of the run, whether the phases
completed or aborted. -/
theorem c9_close_always (s : RunScript) (h : s.dwCreateOk = true) :
    RunEvent.dwConnClosed ∈ etl_main s
    ∧ (etl_main s).getLast? = some RunEvent.dwConnClosed := by
  unfold etl_main
  rw [h]
  cases hp : run_phases s with
  | ok u => simp
  | error e => simp

/-- Witness for C9 at a run whose extraction phase raises. -/
theorem c9_close_always_witness :
    RunEvent.dwConnClosed ∈ etl_main sEx :=
  (c9_close_always sEx rfl).1

/-- C10: a bulk fact load of an empty iterator executes no statement on the
connection and leaves its state, in particular every fact table's contents,
unchanged. -/
theorem c10_empty_load_noop {α : Type} (conn : DuckConn α) (table_name : String) :
    load_fact_table_bulk conn table_name ([] : List α) = (conn, [])
    ∧ ∀ t, tableContents (load_fact_table_bulk conn table_name ([] : List α)).1 t
        = tableContents conn t :=
  ⟨rfl, fun _ => rfl⟩

/-- Witness for C10 at a concrete connection with an empty Logbooks table. -/
theorem c10_empty_load_noop_witness :
    load_fact_table_bulk (⟨[("Logbooks", [])], [], 0⟩ : DuckConn Nat) "Logbooks" []
      = (⟨[("Logbooks", [])], [], 0⟩, []) :=
  (c10_empty_load_noop (⟨[("Logbooks", [])], [], 0⟩ : DuckConn Nat) "Logbooks").1

/-- C1: a flight record contributes 1 to the DFC column and its full arrival
delay in minutes to the TDM column exactly when its delay code is non-null and
the arrival delay strictly exceeds 15 minutes; a delay of at most 15 minutes
(in particular exactly 15) contributes 0 to both. -/
theorem c1_delay_threshold (r : FlightRow) (aa sa : TS)
    (ha : r.actualarrival = some aa) (hs : r.scheduledarrival = some sa) :
    ((dfc_col r = 1 ∧ tdm_col r = (aa.abs - sa.abs) / 60) ↔
      (r.delaycode.isSome = true ∧ 15 < (aa.abs - sa.abs) / 60))
    ∧ ((aa.abs - sa.abs) / 60 ≤ 15 → dfc_col r = 0 ∧ tdm_col r = 0) := by
  have hd : arrival_delay_minutes r = some ((aa.abs - sa.abs) / 60) := by
    simp [arrival_delay_minutes, ha, hs]
  have hdel : is_delayed_col r
      = (r.delaycode.isSome && decide (15 < (aa.abs - sa.abs) / 60)) := by
    simp [is_delayed_col, hd]
  by_cases hc : r.delaycode.isSome = true
  · by_cases h15 : 15 < (aa.abs - sa.abs) / 60
    · have hD : is_delayed_col r = true := by
        rw [hdel, hc]
        simpa using h15
      refine ⟨⟨fun _ => ⟨hc, h15⟩, fun _ => ⟨?_, ?_⟩⟩, fun hle => absurd h15 (not_lt.mpr hle)⟩
      · simp [dfc_col, hD]
      · simp [tdm_col, hD, hd]
    · have hD : is_delayed_col r = false := by
        rw [hdel]
        simpa using fun _ => h15
      refine ⟨⟨fun h1 => ?_, fun h2 => absurd h2.2 h15⟩, fun _ => ⟨?_, ?_⟩⟩
      · exact absurd h1.1 (by simp [dfc_col, hD])
      · simp [dfc_col, hD]
      · simp [tdm_col, hD]
  · have hD : is_delayed_col r = false := by
      rw [hdel]
      simp [Bool.eq_false_iff.mpr hc]
    refine ⟨⟨fun h1 => ?_, fun h2 => absurd h2.1 hc⟩, fun _ => ⟨?_, ?_⟩⟩
    · exact absurd h1.1 (by simp [dfc_col, hD])
    · simp [dfc_col, hD]
    · simp [tdm_col, hD]

theorem c1_delay_eq_15 : ((ts 900).abs - (ts 0).abs) / 60 ≤ 15 := by
  norm_num [ts]

/-- Witness for C1: the flight with delay code set and an arrival delay of
exactly 15 minutes contributes 0 to both measures. -/
theorem c1_delay_threshold_witness : dfc_col rC1 = 0 ∧ tdm_col rC1 = 0 :=
  (c1_delay_threshold rC1 (ts 900) (ts 0) rfl rfl).2 c1_delay_eq_15

/-- C2 (amended): the three per-record measures are all keyed on the combined
condition "cancelled flag set or actual departure missing": under it
flight-hours contribute 0, takeoffs 0 and cancelled-count 1; otherwise
takeoffs contribute 1, cancelled-count 0, and flight-hours the raw
(arrival − departure) duration in hours — with a missing arrival contributing
0, and no flooring at 0, so the contribution can be negative. -/
theorem c2_measure_columns (r : FlightRow) :
    (is_cancelled_col r = true ↔ r.cancelled = true ∨ r.actualdeparture = none)
    ∧ (is_cancelled_col r = true →
        fh_col r = 0 ∧ takeoffs_col r = 0 ∧ cfc_col r = 1)
    ∧ (is_cancelled_col r = false →
        takeoffs_col r = 1 ∧ cfc_col r = 0
        ∧ (∀ a d, r.actualarrival = some a → r.actualdeparture = some d →
            fh_col r = (a.abs - d.abs) / 3600)
        ∧ (r.actualarrival = none → fh_col r = 0)) := by
  refine ⟨?_, ?_, ?_⟩
  · simp [is_cancelled_col, Option.isNone_iff_eq_none]
  · intro h
    simp [fh_col, takeoffs_col, cfc_col, h]
  · intro h
    refine ⟨by simp [takeoffs_col, h], by simp [cfc_col, h], ?_, ?_⟩
    · intro a d ha hd
      simp [fh_col, duration_col, h, ha, hd]
    · intro ha
      simp [fh_col, duration_col, h, ha]

theorem c2_neg_duration : fh_col rNeg = -1 := by
  norm_num [fh_col, is_cancelled_col, duration_col, rNeg, ts]

/-- Counterexample to C2 as stated: `rNeg` is not cancelled and has an actual
departure, yet its flight-hours contribution is −1 — nothing floors it at 0;
and `rBad` has its cancelled flag clear, yet contributes 0 takeoffs and 1 to
the cancelled-flight count because its actual departure is missing. -/
theorem c2_counterexample :
    (rNeg.cancelled = false ∧ rNeg.actualdeparture.isSome = true ∧ fh_col rNeg < 0)
    ∧ (rBad.cancelled = false ∧ takeoffs_col rBad = 0 ∧ cfc_col rBad = 1) := by
  refine ⟨⟨rfl, rfl, ?_⟩, by decide⟩
  rw [c2_neg_duration]
  norm_num

/-- Witness for C2 at the concrete non-cancelled record. -/
theorem c2_measure_columns_witness :
    takeoffs_col rNeg = 1
    ∧ fh_col rNeg = ((ts 0).abs - (ts 3600).abs) / 3600 :=
  ⟨((c2_measure_columns rNeg).2.2 rfl).1,
   ((c2_measure_columns rNeg).2.2 rfl).2.2.1 (ts 0) (ts 3600) rfl rfl⟩

/-- C6: every maintenance record's duration-fraction-of-day is clamped into
[0, 1] before being routed to the scheduled or unscheduled accumulator, and a
30-hour window contributes exactly 1. -/
theorem c6_out_of_service_clamp (r : MaintRowD) :
    (0 ≤ pct_of_day_col r ∧ pct_of_day_col r ≤ 1)
    ∧ (r.programmed = true →
        scheduled_pct_col r = pct_of_day_col r ∧ unscheduled_pct_col r = 0)
    ∧ (r.programmed = false →
        unscheduled_pct_col r = pct_of_day_col r ∧ scheduled_pct_col r = 0)
    ∧ (duration_hours_col r = 30 → pct_of_day_col r = 1) := by
  refine ⟨?_, ?_, ?_, ?_⟩
  · unfold pct_of_day_col clip01
    split
    · exact ⟨le_refl 0, zero_le_one⟩
    · split
      · exact ⟨zero_le_one, le_refl 1⟩
      · exact ⟨le_of_not_lt (by assumption), le_of_not_lt (by assumption)⟩
  · intro h
    simp [scheduled_pct_col, unscheduled_pct_col, h]
  · intro h
    simp [scheduled_pct_col, unscheduled_pct_col, h]
  · intro h
    unfold pct_of_day_col
    rw [h]
    norm_num [clip01]

theorem c6_thirty_hours : duration_hours_col mEx = 30 := by
  norm_num [duration_hours_col, mEx, ts]

/-- Witness for C6: the 30-hour programmed window contributes exactly 1 to the
scheduled accumulator. -/
theorem c6_out_of_service_clamp_witness :
    pct_of_day_col mEx = 1 ∧ scheduled_pct_col mEx = pct_of_day_col mEx :=
  ⟨(c6_out_of_service_clamp mEx).2.2.2 c6_thirty_hours,
   ((c6_out_of_service_clamp mEx).2.1 rfl).1⟩

theorem exMonths_no_typeErr : ∀ k, exMonths k ≠ Except.error LookupErr.typeErr :=
  fun _ h => Except.noConfusion h

theorem exReporters_no_typeErr :
    ∀ k, exReporters k ≠ Except.error LookupErr.typeErr :=
  fun _ h => Except.noConfusion h

theorem exAircrafts_no_typeErr :
    ∀ k, exAircrafts k ≠ Except.error LookupErr.typeErr := by
  intro k h
  unfold exAircrafts at h
  split at h <;> simp at h

/-- C3 (amended): the daily-flight and monthly-snapshot aggregators skip a
group on either lookup failure kind and never let an exception escape; the
logbook aggregator is exception-free only when no lookup fails with a
type-conversion failure, because its loop catches only missing-key failures.
On ten groups of which one is unresolvable by a missing key, the daily and
logbook aggregators emit exactly nine fact rows. -/
theorem c3_skip_and_continue :
    (∀ flights dl al, ∃ out, get_flights_operations_daily flights dl al = .ok out)
    ∧ (∀ maintenance ml al,
        ∃ out, get_aircrafts_monthly_snapshot maintenance ml al = .ok out)
    ∧ (∀ logs ml al rl,
        (∀ k, ml k ≠ .error .typeErr) → (∀ k, al k ≠ .error .typeErr) →
        (∀ k, rl k ≠ .error .typeErr) →
        ∃ out, get_logbooks logs ml al rl = .ok out)
    ∧ exceptLen (get_flights_operations_daily tenFlights exDates exAircrafts)
        = some 9
    ∧ exceptLen (get_logbooks tenLogs exMonths exAircrafts exReporters)
        = some 9 := by
  refine ⟨?_, ?_, ?_, by decide, by decide⟩
  · intro flights dl al
    exact skipLoop_catchall_ok (process_flight_row dl al) (flight_agg_rows flights)
  · intro maintenance ml al
    exact skipLoop_catchall_ok (process_maint_row ml al) (maint_agg_rows maintenance)
  · intro logs ml al rl hm ha hr
    exact skipLoop_no_typeErr_ok (process_log_row ml al rl) (log_agg_rows logs)
      (process_log_row_no_typeErr ml al rl hm ha hr)

/-- Witness for C3: the concrete ten-group logbook input under lookups that
fail only with missing keys aggregates without an escaping exception. -/
theorem c3_skip_and_continue_witness :
    ∃ out, get_logbooks tenLogs exMonths exAircrafts exReporters = .ok out :=
  c3_skip_and_continue.2.2.1 tenLogs exMonths exAircrafts exReporters
    exMonths_no_typeErr exAircrafts_no_typeErr exReporters_no_typeErr

/-- Counterexample to C3 as stated: the same ten logbook groups, nine of them
resolvable, with the one bad aircraft registration failing by type-conversion
rather than by missing key: the logbook aggregation escapes with the error and
yields no fact rows at all instead of skipping the one group. -/
theorem c3_counterexample :
    exceptErr (get_logbooks tenLogs exMonths exAircraftsT exReporters)
      = some LookupErr.typeErr
    ∧ exceptLen (get_logbooks tenLogs exMonths exAircraftsT exReporters) = none
    ∧ (log_agg_rows tenLogs).length = 10
    ∧ exceptLen (get_logbooks tenLogs exMonths exAircrafts exReporters)
        = some 9 := by
  decide

/-- C4 (amended): in the sorted non-cancelled stream, the earlier flight of an
adjacent same-aircraft overlapping pair is always excluded from the output;
the later one is kept provided it does not itself overlap its own successor;
on the concrete scenario A (08:00-10:00), B (09:00-11:00), C (11:30-13:00)
exactly A is excluded. -/
theorem c4_overlap_exclusion :
    check_and_fix_2nd_BR [fA, fB, fC] = [fB, fC]
    ∧ (∀ flights r nx arr dep,
        (r, some nx) ∈ adjPairs (sortedNC flights) →
        nx.aircraftregistration = r.aircraftregistration →
        r.actualarrival = some arr → nx.actualdeparture = some dep →
        dep.abs < arr.abs →
        r.id ∈ ignored_flights_ids flights
        ∧ ∀ s ∈ check_and_fix_2nd_BR flights, s.id ≠ r.id)
    ∧ (∀ flights r nx arr dep,
        (r, some nx) ∈ adjPairs (sortedNC flights) →
        nx.aircraftregistration = r.aircraftregistration →
        r.actualarrival = some arr → nx.actualdeparture = some dep →
        dep.abs < arr.abs →
        (∀ p ∈ adjPairs (sortedNC flights), p.1.id = nx.id → br2Flag p = none) →
        nx ∈ check_and_fix_2nd_BR flights) := by
  refine ⟨by decide, ?_, ?_⟩
  · intro flights r nx arr dep hmem hreg harr hdep hlt
    have hflag : br2Flag (r, some nx) = some r.id := by
      simp [br2Flag, hreg, harr, hdep, hlt]
    have hid : r.id ∈ ignored_flights_ids flights :=
      List.mem_filterMap.mpr ⟨(r, some nx), hmem, hflag⟩
    refine ⟨hid, ?_⟩
    intro s hs heq
    have hmf := List.mem_filter.mp hs
    have hnot : s.id ∉ ignored_flights_ids flights := by
      simpa using hmf.2
    exact hnot (heq ▸ hid)
  · intro flights r nx arr dep hmem hreg harr hdep hlt hno
    have hnxmem : nx ∈ flights := sortedNC_subset (adjPairs_snd_mem hmem)
    have hnotin : nx.id ∉ ignored_flights_ids flights := by
      intro hin
      obtain ⟨p, hp, hflag⟩ := List.mem_filterMap.mp hin
      have hpid := br2Flag_eq_some hflag
      have h0 := hno p hp hpid.symm
      rw [h0] at hflag
      exact Option.noConfusion hflag
    exact List.mem_filter.mpr ⟨hnxmem, by simpa using hnotin⟩

/-- Witness for C4: in the A/B/C scenario the overlapping pair (A, B) gets A
excluded and B, which does not overlap C, kept. -/
theorem c4_overlap_exclusion_witness :
    (fA.id ∈ ignored_flights_ids [fA, fB, fC])
    ∧ fB ∈ check_and_fix_2nd_BR [fA, fB, fC] :=
  ⟨(c4_overlap_exclusion.2.1 [fA, fB, fC] fA fB (ts 36000) (ts 32400)
      (by decide) rfl rfl rfl (by decide)).1,
   c4_overlap_exclusion.2.2 [fA, fB, fC] fA fB (ts 36000) (ts 32400)
      (by decide) rfl rfl rfl (by decide) (by decide)⟩

/-- Counterexample to C4 as stated: in the chain A (08:00-11:00),
B (09:00-12:00), C (10:00-13:00) the adjacent pair (A, B) overlaps, yet the
later flight B is not kept — it is excluded for overlapping C. -/
theorem c4_counterexample :
    (gA, some gB) ∈ adjPairs (sortedNC [gA, gB, gC])
    ∧ br2Flag (gA, some gB) = some gA.id
    ∧ gB ∈ ([gA, gB, gC] : List FlightRow)
    ∧ gB ∉ check_and_fix_2nd_BR [gA, gB, gC] := by
  decide

end ETL
